import Mathlib

/-!
Verification development for the mithr conversational backend
(session store, conversation state machine, workflow executor, RAG client).

The Python sources are shallowly embedded: dictionaries become structures,
`None`-vs-absent distinctions that the code observes become nested options,
network calls become oracle parameters, and raised exceptions become
`Except` errors.  Python string operations are re-implemented structurally
so that every definition evaluates inside the kernel; they agree with the
Python behaviour on the ASCII data this program manipulates.
-/

namespace Mithr

/-! ## Python string primitives -/

/-- Python truthiness of an `Optional[str]` value: `None` and `""` are falsy. -/
def pyTruthy : Option String → Bool
  | none => false
  | some s => !(s == "")

/-- Lowercase an ASCII character, mirroring `str.lower` on ASCII input. -/
def lowerChar (c : Char) : Char :=
  if c.toNat ≥ 65 && c.toNat ≤ 90 then Char.ofNat (c.toNat + 32) else c

/-- Python `str.lower` (ASCII range; all keywords in this program are ASCII). -/
def pyLower (s : String) : String := ⟨s.data.map lowerChar⟩

/-- Whitespace recognised by `str.strip` (ASCII subset used by this program). -/
def isWs (c : Char) : Bool :=
  (c == ' ') || (c == '\t') || (c == '\n') || (c == '\x0d') || (c == '\x0b') || (c == '\x0c')

/-- Python `str.strip`: drop leading and trailing whitespace. -/
def pyStrip (s : String) : String :=
  ⟨((s.data.dropWhile isWs).reverse.dropWhile isWs).reverse⟩

/-- Substring containment on character lists (`pat` occurs inside `hay`). -/
def listContainsSub (hay pat : List Char) : Bool :=
  match hay with
  | [] => pat.isEmpty
  | _ :: t => pat.isPrefixOf hay || listContainsSub t pat

/-- Python `pat in hay` substring test for strings. -/
def strContainsSub (hay pat : String) : Bool := listContainsSub hay.data pat.data

/-- Python `s.replace("_node", "")`: delete every occurrence of `_node`,
scanning left to right without overlap (executor.py line 45). -/
def stripNodeOcc : List Char → List Char
  | '_' :: 'n' :: 'o' :: 'd' :: 'e' :: rest => stripNodeOcc rest
  | c :: rest => c :: stripNodeOcc rest
  | [] => []

/-- Node-name cleanup performed by `get_func_and_router`. -/
def cleanNodeName (s : String) : String := ⟨stripNodeOcc s.data⟩

/-! ## Conversation state (models/userstate.py `State` TypedDict)

A Python dict distinguishes an absent key from a key stored as `None`, and
the routers observe that distinction (`state.get("last_query", "")` yields
the default only for an absent key).  Fields where the code observes the
difference are `Option (Option _)`: `none` = key absent, `some none` = key
present holding `None`, `some (some v)` = key present holding a value. -/

/-- One history record appended by the node handlers
(`{"user": ..., "assistant": ...}`; the goodbye entry omits `"user"`). -/
structure HistEntry where
  user : Option String
  assistant : Option String
deriving DecidableEq

/-- The conversation state dictionary. -/
structure ConvState where
  name : Option (Option String)
  current_node : Option String
  next_question : Option String
  last_query : Option (Option String)
  session_id : Option String
  history : Option (List HistEntry)
  retry_count : Int
  conversation_ended : Bool
  collect_name_result : Option String
  error : Option String
deriving DecidableEq

/-- Oracle for `rag_client.query_university_info`: given the question and the
session id from the state, either an answer string or a raised exception. -/
def RagOracle : Type := String → Option String → Except String String

/-- Append one record to `state["history"]`, creating the list when the key
is absent (the `if "history" not in state` idiom in node_functions.py). -/
def appendHistory (st : ConvState) (e : HistEntry) : ConvState :=
  { st with history := some ((st.history.getD []) ++ [e]) }

/-! ## Node handlers (nodes/node_functions.py) -/

/-- Greeting emitted by `collect_name` when no input was given. -/
def helloPrompt : String :=
  "Hello! I\x27m your university assistant. What\x27s your name?"

/-- Reply emitted by `collect_name` once a name has been provided. -/
def niceToMeetMsg (nm : String) : String :=
  "Nice to meet you, " ++ nm ++ "! I\x27m your university assistant. How can I help you today?"

/-- Handler `collect_name(llm, state, user_input)`; the `llm` argument is
unused (`None`) in the source and is omitted.  Any truthy input is accepted:
the stripped input becomes the name and the handler writes
`current_node = "university_chat"`.  There is no length check and
`retry_count` is never touched. -/
def collect_name_fn (st : ConvState) (ui : Option String) : ConvState :=
  if pyTruthy ui then
    let s := ui.getD ""
    let st1 := { st with
      name := some (some (pyStrip s)),
      current_node := some "university_chat",
      next_question := some (niceToMeetMsg (pyStrip s)) }
    appendHistory st1 { user := some s, assistant := st1.next_question }
  else
    { st with current_node := some "collect_name", next_question := some helloPrompt }

/-- Goodbye phrases scanned by the `university_chat` handler (seven entries). -/
def goodbye_phrases : List String :=
  ["bye", "goodbye", "see you", "thanks", "thank you", "exit", "quit"]

/-- Apology used when the RAG answer is empty or blank. -/
def noInfoReply : String :=
  "I\x27m sorry, I don\x27t have information about that. Could you please rephrase your question or ask about admissions, courses, campus facilities, or other university services?"

/-- Apology used when the RAG call raises. -/
def ragTroubleReply : String :=
  "I\x27m having trouble accessing the university information system right now. Please try again in a moment."

/-- Handler `university_chat(llm, state, user_input)`.  With falsy input the
state is returned unchanged.  Otherwise the input is stripped and lowered;
a goodbye-phrase substring match writes `current_node = "goodbye"` and
returns early; otherwise the RAG oracle is consulted inside a try/except
(the handler passes `state.get("session_id", "default")`, modelled as the
session id field), the answer or an apology becomes `next_question`, the
exchange is appended to history and `current_node = "university_chat"`. -/
def university_chat_fn (rag : RagOracle) (st : ConvState) (ui : Option String) : ConvState :=
  if pyTruthy ui then
    let q := pyLower (pyStrip (ui.getD ""))
    if goodbye_phrases.any (fun p => strContainsSub q p) then
      { st with current_node := some "goodbye" }
    else
      let nq : String :=
        match rag q st.session_id with
        | .ok r => if pyStrip r == "" then noInfoReply else r
        | .error _ => ragTroubleReply
      let st1 := appendHistory { st with next_question := some nq }
        { user := some q, assistant := some nq }
      { st1 with current_node := some "university_chat" }
  else st

/-- Farewell text (`goodbye_messages[0]` is always picked). -/
def goodbyeMsg (nm : String) : String :=
  "Goodbye, " ++ nm ++ "! Feel free to come back if you have more questions about our university."

/-- Handler `goodbye(llm, state, user_input)`.  Interpolates
`state.get("name", "there")` into the farewell (a stored Python `None`
prints as `"None"`), sets `conversation_ended = True` and
`current_node = "goodbye"`, appends an assistant-only history record.  The
`rag_client.clear_session_context` call is wrapped in try/except and does
not affect this state. -/
def goodbye_fn (st : ConvState) (_ui : Option String) : ConvState :=
  let nm := match st.name with
    | none => "there"
    | some none => "None"
    | some (some s) => s
  let st1 := { st with
    next_question := some (goodbyeMsg nm),
    conversation_ended := true,
    current_node := some "goodbye" }
  appendHistory st1 { user := none, assistant := st1.next_question }

/-! ## Routers (nodes/routes.py) -/

/-- Router for `collect_name`: keys on `state.get("collect_name_result")`,
a field no handler ever writes; `None`/absent routes back to
`collect_name`. -/
def collect_name_router (st : ConvState) : Except String String :=
  .ok (if st.collect_name_result.isNone then "collect_name" else "university_chat")

/-- Goodbye keywords used by `university_chat_router` (eight entries; note
the set differs from `goodbye_phrases` in the handler). -/
def router_goodbye_keywords : List String :=
  ["goodbye", "bye", "exit", "quit", "end", "stop", "thanks", "thank you"]

/-- Router for `university_chat`: reads
`state.get("last_query", "").lower()`.  An absent key yields the default
`""`; a key stored as `None` makes `.lower()` raise `AttributeError`. -/
def university_chat_router (st : ConvState) : Except String String :=
  match st.last_query with
  | none => .ok (if router_goodbye_keywords.any
      (fun k => strContainsSub (pyLower "") k) then "goodbye" else "university_chat")
  | some none => .error "AttributeError"
  | some (some q) => .ok (if router_goodbye_keywords.any
      (fun k => strContainsSub (pyLower q) k) then "goodbye" else "university_chat")

/-- Router for `goodbye`: returns the langgraph `END` sentinel string. -/
def goodbye_router (_st : ConvState) : Except String String := .ok "__end__"

/-- Condition under which `university_chat_router` answers `"goodbye"`:
the stored `last_query` is a string whose lowercasing contains one of the
eight router keywords (an absent key defaults to `""` and never matches; a
key holding `None` makes the router raise instead). -/
def lastQueryMatches : Option (Option String) → Bool
  | some (some q) => router_goodbye_keywords.any (fun k => strContainsSub (pyLower q) k)
  | _ => false

/-! ## Workflow executor (utils/executor.py) -/

/-- Names of the three registry nodes of `UniversityWorkflowExecutor`. -/
inductive RegNode where
  | collectName
  | universityChat
  | goodbye
deriving DecidableEq

/-- Handler of a registry node (the `"function"` entry). -/
def handlerOf (rag : RagOracle) : RegNode → ConvState → Option String → ConvState
  | .collectName => collect_name_fn
  | .universityChat => university_chat_fn rag
  | .goodbye => goodbye_fn

/-- Router of a registry node (the `"router"` entry). -/
def routerOf : RegNode → ConvState → Except String String
  | .collectName => collect_name_router
  | .universityChat => university_chat_router
  | .goodbye => goodbye_router

/-- Result of `get_func_and_router`.  `raisingAttr` covers the
backward-compatibility fallback `getattr(node_functions, clean_name)`
finding some other module attribute: every such attribute (helper
functions of different arity, imported modules, data) raises `TypeError`
when invoked as `func(llm, state, user_input)`, which the executor
catches.  `missing` is `(None, None)`. -/
inductive Resolved where
  | reg : RegNode → Resolved
  | raisingAttr
  | missing
deriving DecidableEq

/-- Public attributes of the `node_functions` module reachable by the
`getattr` fallback (besides the three registry handlers); dunder
attributes behave identically for the executor (error recorded, apology
emitted). -/
def node_functions_attrs : List String :=
  ["collect_name", "university_chat", "goodbye",
   "get_user_context", "format_university_response", "json", "rag_client", "MOCK_DATA"]

/-- Resolution `get_func_and_router(node_name)`: delete every `_node`
occurrence, look the result up in the three-entry registry, then fall
back to module attribute lookup.  The router fallback
`getattr(routes, clean + "_router")` only hits for the three registry
names, which are matched earlier, so fallback resolutions carry no
router. -/
def get_func_and_router (node_name : String) : Resolved :=
  let c := cleanNodeName node_name
  if c == "collect_name" then .reg .collectName
  else if c == "university_chat" then .reg .universityChat
  else if c == "goodbye" then .reg .goodbye
  else if node_functions_attrs.contains c then .raisingAttr
  else .missing

/-- Apology written by `execute_node` when no handler was found. -/
def unknownNodeReply : String := "I\x27m sorry, I don\x27t understand that request."

/-- Apology written by `execute_node` when a handler or router raised. -/
def execErrorReply : String := "I\x27m sorry, I encountered an error. Please try again."

/-- Executor `execute_node(node_name, llm, state, user_input)`.  Runs the
resolved handler, then the router when the input is truthy; exceptions
from handler or router are caught into `state["error"]` with a generic
apology; finally `current_node` is written unconditionally as
`next_node if next_node else node_name`.  The textual payload after
`"Error in <node>: "` stands in for Python `str(e)`. -/
def execute_node (rag : RagOracle) (node_name : String) (st : ConvState)
    (ui : Option String) : ConvState :=
  match get_func_and_router node_name with
  | .reg k =>
    let st1 := handlerOf rag k st ui
    if pyTruthy ui then
      match routerOf k st1 with
      | .ok nn => { st1 with current_node := some (if nn == "" then node_name else nn) }
      | .error e =>
        { st1 with
          error := some ("Error in " ++ node_name ++ ": " ++ e),
          next_question := some execErrorReply,
          current_node := some node_name }
    else
      { st1 with current_node := some node_name }
  | .raisingAttr =>
    { st with
      error := some ("Error in " ++ node_name ++ ": TypeError"),
      next_question := some execErrorReply,
      current_node := some node_name }
  | .missing =>
    { st with
      error := some ("Unknown node: " ++ node_name),
      next_question := some unknownNodeReply,
      current_node := some node_name }

/-! ## Application layer (app.py) -/

/-- The `State(...)` literal built by the `/session/` endpoint before the
initial `execute_node("collect_name", None, state)` call.  Every key is
present; `name`, `next_question`, `session_id` and `last_query` hold
Python `None`. -/
def initial_state : ConvState :=
  { name := some none,
    current_node := some "collect_name",
    next_question := none,
    last_query := some none,
    session_id := none,
    history := some [],
    retry_count := 0,
    conversation_ended := false,
    collect_name_result := none,
    error := none }

/-- State-machine core of the `/chat/` endpoint body: early return once
`conversation_ended` is set, otherwise
`execute_node(state.get("current_node", "university_chat"), None, state,
user_input)` followed by a second input-less `execute_node` when the
computed node is truthy and differs from the previous one. -/
def chat_turn (rag : RagOracle) (st : ConvState) (ui : Option String) : ConvState :=
  if st.conversation_ended then st
  else
    let current := st.current_node.getD "university_chat"
    let st1 := execute_node rag current st ui
    match st1.current_node with
    | some nxt => if !(nxt == "") && !(nxt == current) then execute_node rag nxt st1 none else st1
    | none => st1

/-! ## Session store (session_store.py)

The module-level dict `session_store` is an association list with unique
keys; `storeSet` overwrites an existing binding, `storeErase` removes
one. -/

/-- In-memory session mapping. -/
abbrev SessStore := List (String × ConvState)

/-- Python `dict.get(key)`. -/
def storeGet (id : String) : SessStore → Option ConvState
  | [] => none
  | (k, v) :: rest => if k == id then some v else storeGet id rest

/-- Python `dict[key] = value`. -/
def storeSet (id : String) (v : ConvState) : SessStore → SessStore
  | [] => [(id, v)]
  | (k, w) :: rest => if k == id then (k, v) :: rest else (k, w) :: storeSet id v rest

/-- Python `del dict[key]`. -/
def storeErase (id : String) : SessStore → SessStore
  | [] => []
  | (k, w) :: rest => if k == id then storeErase id rest else (k, w) :: storeErase id rest

/-- Python `key in dict`. -/
def storeHasKey (id : String) (s : SessStore) : Bool := (storeGet id s).isSome

/-- `create_session(state)`: the fresh `str(uuid4())` output is supplied
as `new_id` (the randomness is external to the code).  The id is embedded
into the state under `session_id` and the state is inserted; the store is
not consulted, so an id already present is silently overwritten. -/
def create_session (new_id : String) (st : ConvState) (store : SessStore) :
    String × SessStore :=
  (new_id, storeSet new_id { st with session_id := some new_id } store)

/-- `get_session(session_id)`: keyed lookup, `None` when absent. -/
def get_session (id : String) (store : SessStore) : Option ConvState := storeGet id store

/-- `update_session(session_id, new_state)`: overwrite only when present. -/
def update_session (id : String) (st : ConvState) (store : SessStore) : Bool × SessStore :=
  if storeHasKey id store then (true, storeSet id st store) else (false, store)

/-- `delete_session(session_id)`: delete only when present. -/
def delete_session (id : String) (store : SessStore) : Bool × SessStore :=
  if storeHasKey id store then (true, storeErase id store) else (false, store)

/-- A run of successive `create_session` calls; each pair supplies the
uuid4 output and the initial state of one call.  Returns the ids the
calls returned and the final store. -/
def runCreates : SessStore → List (String × ConvState) → List String × SessStore
  | store, [] => ([], store)
  | store, (id, st) :: rest =>
    let r := create_session id st store
    let r2 := runCreates r.2 rest
    (r.1 :: r2.1, r2.2)

/-! ## Dict object heap (for `get_all_sessions`)

`get_all_sessions` returns `session_store.copy()`; whether mutating the
returned dict touches the store is a question about object identity, so
dict objects live in a small heap: a reference is an index, the store is
one of the references. -/

/-- Heap of dict objects. -/
abbrev Heap := List SessStore

/-- Contents of the dict at reference `r`. -/
def hGet (h : Heap) (r : Nat) : SessStore := (h.getD r [])

/-- Overwrite the dict at reference `r`. -/
def hSet (h : Heap) (r : Nat) (d : SessStore) : Heap := h.set r d

/-- `get_all_sessions()`: allocate a fresh dict object holding a copy of
the store entries and return its reference. -/
def get_all_sessions_h (h : Heap) (storeRef : Nat) : Nat × Heap :=
  (h.length, h ++ [hGet h storeRef])

/-- Remove an entry from the dict object at `r` (caller-side mutation of
the returned mapping). -/
def heapDelEntry (h : Heap) (r : Nat) (k : String) : Heap :=
  hSet h r (storeErase k (hGet h r))

/-- Add or overwrite an entry in the dict object at `r`. -/
def heapAddEntry (h : Heap) (r : Nat) (k : String) (v : ConvState) : Heap :=
  hSet h r (storeSet k v (hGet h r))

/-! ## RAG client (utils/rag_client.py `query_university_info`) -/

/-- Parsed JSON dict body of a 200 response; `asStr` is `str(data)`. -/
structure RagBody where
  response : Option String
  answer : Option String
  result : Option String
  text : Option String
  asStr : String

/-- Outcome of the `requests.post` call inside the try block: a response
with a status code and (for 200) a parsed body, or a raised
`requests` exception. -/
inductive HttpOutcome where
  | resp (status : Nat) (body : RagBody)
  | raiseConn
  | raiseTimeout
  | raiseOther (exc : String)

/-- Python `a or b or ... or d`: first truthy `data.get(...)` field. -/
def firstTruthy : List (Option String) → String → String
  | [], d => d
  | some s :: rest, d => if s == "" then firstTruthy rest d else s
  | none :: rest, d => firstTruthy rest d

/-- Answer extraction for a 200 response
(`data.get("response") or data.get("answer") or data.get("result") or
data.get("text") or str(data)`). -/
def extract_rag_answer (b : RagBody) : String :=
  firstTruthy [b.response, b.answer, b.result, b.text] b.asStr

/-- Keyword fallback `_get_fallback_response(question)`. -/
def get_fallback_response (question : String) : String :=
  let ql := pyLower question
  if ["admission", "apply", "application"].any (fun w => strContainsSub ql w) then
    "For admission information, please visit the admissions office or check the university website. I\x27m currently unable to access the detailed admission database."
  else if ["course", "subject", "curriculum"].any (fun w => strContainsSub ql w) then
    "For course information, please contact the academic office or your department advisor. I\x27m having trouble accessing the course catalog right now."
  else if ["fee", "payment", "cost", "tuition"].any (fun w => strContainsSub ql w) then
    "For fee and payment information, please contact the finance office or check your student portal. I cannot access fee details at the moment."
  else if ["library", "book", "resource"].any (fun w => strContainsSub ql w) then
    "For library resources, please visit the university library or use the online catalog. I\x27m currently unable to access library information."
  else
    "I\x27m sorry, I\x27m having trouble accessing the university information system right now. Please try asking again later, or contact the relevant university office directly for assistance."

/-- Attributes actually defined by the `requests.exceptions` module (no
version of requests defines `ConnectException`). -/
def requests_exceptions_attrs : List String :=
  ["RequestException", "InvalidJSONError", "JSONDecodeError", "HTTPError",
   "ConnectionError", "ProxyError", "SSLError", "Timeout", "ConnectTimeout",
   "ReadTimeout", "URLRequired", "TooManyRedirects", "MissingSchema",
   "InvalidSchema", "InvalidURL", "InvalidHeader", "InvalidProxyURL",
   "ChunkedEncodingError", "ContentDecodingError", "StreamConsumedError",
   "RetryError", "UnrewindableBodyError", "FileModeWarning",
   "RequestsDependencyWarning"]

/-- Result of a Python call: a returned value or a propagated exception. -/
inductive PyResult (α : Type) where
  | ok (a : α)
  | raised (exc : String)
deriving DecidableEq

/-- Message of the intended connection-failure fallback. -/
def ragConnectReply : String :=
  "I\x27m sorry, I cannot connect to the university information system right now. Please check if the system is running and try again."

/-- Message of the intended timeout fallback. -/
def ragTimeoutReply : String :=
  "The university information system is taking too long to respond. Please try asking a simpler question or try again later."

/-- Exception dispatch of `query_university_info`: when an exception
escapes the try block, CPython evaluates the class expression of the
first clause, `requests.exceptions.ConnectException`.  That attribute
does not exist, so the evaluation itself raises `AttributeError`, which
propagates and aborts the whole handler chain; the later
`except requests.exceptions.Timeout` and `except Exception` clauses are
never reached.  The branch under the (false) attribute-exists test
records the chain the author intended. -/
def dispatchRequestsExc (exc : String) (question : String) : PyResult String :=
  if requests_exceptions_attrs.contains "ConnectException" then
    if exc == "ConnectException" then .ok ragConnectReply
    else if exc == "Timeout" || exc == "ConnectTimeout" || exc == "ReadTimeout" then
      .ok ragTimeoutReply
    else .ok (get_fallback_response question)
  else
    .raised "AttributeError: module requests.exceptions has no attribute ConnectException"

/-- The boundary behaviour of `query_university_info(question, ...)` as a
function of the HTTP outcome: a 200 response yields the extracted answer,
a non-200 response yields the keyword fallback, and any raised exception
enters the broken except chain.  (The session-context bookkeeping on the
success path touches only the client-side context dict.) -/
def query_university_info (outcome : HttpOutcome) (question : String) : PyResult String :=
  match outcome with
  | .resp status body =>
    if status == 200 then .ok (extract_rag_answer body)
    else .ok (get_fallback_response question)
  | .raiseConn => dispatchRequestsExc "ConnectionError" question
  | .raiseTimeout => dispatchRequestsExc "Timeout" question
  | .raiseOther exc => dispatchRequestsExc exc question

/-! ## Concrete oracles and states used by witnesses -/

/-- Oracle standing for a healthy RAG endpoint. -/
def ragOkOracle : RagOracle := fun _ _ => .ok "RAG answer."

/-- Oracle standing for a RAG call that raises. -/
def ragFailOracle : RagOracle := fun _ _ => .error "boom"

/-- A RAG outcome the handler treats as a failure: the call raised, or
the returned answer is empty or whitespace-only
(`if rag_response and rag_response.strip()` fails). -/
def ragBlankOrRaised : Except String String → Bool
  | .error _ => true
  | .ok r => pyStrip r == ""

/-! ## Store lemmas -/

lemma storeGet_set_self (id : String) (v : ConvState) (store : SessStore) :
    storeGet id (storeSet id v store) = some v := by
  induction store with
  | nil => simp [storeGet, storeSet]
  | cons hd tl ih =>
    obtain ⟨k, w⟩ := hd
    by_cases h : k = id
    · simp [storeGet, storeSet, h]
    · simp [storeGet, storeSet, h, ih]

lemma storeGet_erase_self (id : String) (store : SessStore) :
    storeGet id (storeErase id store) = none := by
  induction store with
  | nil => simp [storeGet, storeErase]
  | cons hd tl ih =>
    obtain ⟨k, w⟩ := hd
    by_cases h : k = id
    · simp [storeErase, h, ih]
    · simp [storeGet, storeErase, h, ih]

lemma storeGet_none_of_hasKey_false (id : String) (store : SessStore)
    (h : storeHasKey id store = false) : storeGet id store = none := by
  unfold storeHasKey at h
  cases hg : storeGet id store with
  | none => rfl
  | some v => rw [hg] at h; simp at h

lemma runCreates_fst (l : List (String × ConvState)) :
    ∀ store, (runCreates store l).1 = l.map Prod.fst := by
  induction l with
  | nil => intro store; rfl
  | cons hd tl ih =>
    intro store
    obtain ⟨id, st⟩ := hd
    simp [runCreates, create_session, ih]

/-! ## Heap lemmas -/

lemma hGet_append_self (h : Heap) (d : SessStore) : hGet (h ++ [d]) h.length = d := by
  induction h with
  | nil => rfl
  | cons hd tl ih => simp only [List.cons_append, List.length_cons]; exact ih

lemma hGet_append_lt (h : Heap) (d : SessStore) (r : Nat) (hr : r < h.length) :
    hGet (h ++ [d]) r = hGet h r := by
  induction h generalizing r with
  | nil => simp at hr
  | cons hd tl ih =>
    cases r with
    | zero => rfl
    | succ n =>
      have : n < tl.length := by simpa using hr
      simpa [hGet, List.getD] using ih n this

lemma hGet_set_ne (h : Heap) (r r2 : Nat) (d : SessStore) (hne : r ≠ r2) :
    hGet (hSet h r d) r2 = hGet h r2 := by
  induction h generalizing r r2 with
  | nil => simp [hSet]
  | cons hd tl ih =>
    cases r with
    | zero =>
      cases r2 with
      | zero => exact absurd rfl hne
      | succ m => rfl
    | succ n =>
      cases r2 with
      | zero => rfl
      | succ m =>
        have : n ≠ m := fun e => hne (by rw [e])
        simpa [hGet, hSet, List.getD] using ih n m this

/-! ## State-machine lemmas -/

lemma uc_last_query (rag : RagOracle) (st : ConvState) (ui : Option String) :
    (university_chat_fn rag st ui).last_query = st.last_query := by
  unfold university_chat_fn appendHistory
  dsimp only
  split
  · split
    · rfl
    · rfl
  · rfl

lemma cn_collect_name_result (st : ConvState) (ui : Option String) :
    (collect_name_fn st ui).collect_name_result = st.collect_name_result := by
  unfold collect_name_fn appendHistory
  dsimp only
  split
  · rfl
  · rfl

lemma handlerOf_ce (rag : RagOracle) (k : RegNode) (st : ConvState) (ui : Option String) :
    (handlerOf rag k st ui).conversation_ended
      = if k = RegNode.goodbye then true else st.conversation_ended := by
  cases k with
  | collectName =>
    simp only [handlerOf, collect_name_fn, appendHistory]
    split <;> simp
  | universityChat =>
    simp only [handlerOf, university_chat_fn, appendHistory]
    split
    · split <;> simp
    · simp
  | goodbye =>
    simp [handlerOf, goodbye_fn, appendHistory]

lemma execute_node_ce_reg (rag : RagOracle) (name : String) (st : ConvState)
    (ui : Option String) (k : RegNode) (hres : get_func_and_router name = .reg k) :
    (execute_node rag name st ui).conversation_ended
      = (handlerOf rag k st ui).conversation_ended := by
  unfold execute_node
  rw [hres]
  dsimp only
  split
  · split <;> rfl
  · rfl

lemma execute_node_ce_nonreg (rag : RagOracle) (name : String) (st : ConvState)
    (ui : Option String)
    (hres : get_func_and_router name = .raisingAttr ∨ get_func_and_router name = .missing) :
    (execute_node rag name st ui).conversation_ended = st.conversation_ended := by
  unfold execute_node
  rcases hres with h | h <;> rw [h]

lemma uc_fn_current_node (rag : RagOracle) (st : ConvState) (s : String)
    (hp : pyTruthy (some s) = true) :
    (university_chat_fn rag st (some s)).current_node
      = some (if goodbye_phrases.any (fun p => strContainsSub (pyLower (pyStrip s)) p)
          then "goodbye" else "university_chat") := by
  cases hph : goodbye_phrases.any (fun p => strContainsSub (pyLower (pyStrip s)) p)
  · simp [university_chat_fn, hp, hph, appendHistory]
  · simp [university_chat_fn, hp, hph]

lemma execute_uc_current_node (rag : RagOracle) (st : ConvState) (s : String)
    (hp : pyTruthy (some s) = true) :
    (execute_node rag "university_chat" st (some s)).current_node
      = some (if lastQueryMatches st.last_query then "goodbye" else "university_chat") := by
  have hres : get_func_and_router "university_chat" = Resolved.reg RegNode.universityChat := rfl
  have hlq := uc_last_query rag st (some s)
  unfold execute_node
  rw [hres]
  dsimp only [handlerOf]
  rw [hp]
  cases hc : st.last_query with
  | none =>
    have hrr : routerOf RegNode.universityChat (university_chat_fn rag st (some s))
        = Except.ok "university_chat" := by
      dsimp only [routerOf]
      unfold university_chat_router
      rw [hlq, hc]
      rfl
    rw [hrr]
    rfl
  | some oq =>
    cases oq with
    | none =>
      have hrr : routerOf RegNode.universityChat (university_chat_fn rag st (some s))
          = Except.error "AttributeError" := by
        dsimp only [routerOf]
        unfold university_chat_router
        rw [hlq, hc]
      rw [hrr]
      rfl
    | some q =>
      have hrr : routerOf RegNode.universityChat (university_chat_fn rag st (some s))
          = Except.ok (if router_goodbye_keywords.any (fun k => strContainsSub (pyLower q) k)
              then "goodbye" else "university_chat") := by
        dsimp only [routerOf]
        unfold university_chat_router
        rw [hlq, hc]
      rw [hrr]
      simp only [lastQueryMatches]
      have hnn : ((if (router_goodbye_keywords.any fun k => strContainsSub (pyLower q) k) = true
          then "goodbye" else "university_chat") == "") = false := by
        cases hb : router_goodbye_keywords.any fun k => strContainsSub (pyLower q) k <;> rfl
      simp only [hnn]
      rfl

/-! ## Claim C1 -/

/-- C1 (corrected): the `collect_name` handler enforces no minimum length
and never touches `retry_count`; any truthy input is accepted, the
stripped input becomes the name, and the handler writes
`current_node = "university_chat"` — but `execute_node` then consults
`collect_name_router`, which keys on the never-written
`collect_name_result` field, so the executed turn always routes back to
`collect_name` when that field is unset. -/
theorem C1_collect_name_amended (rag : RagOracle) (st : ConvState) (s : String)
    (h1 : (s == "") = false) (h2 : st.collect_name_result = none) :
    (collect_name_fn st (some s)).current_node = some "university_chat"
  ∧ (execute_node rag "collect_name" st (some s)).name = some (some (pyStrip s))
  ∧ (execute_node rag "collect_name" st (some s)).retry_count = st.retry_count
  ∧ (execute_node rag "collect_name" st (some s)).current_node = some "collect_name" := by
  have hp : pyTruthy (some s) = true := by simp [pyTruthy, h1]
  have hrt : routerOf RegNode.collectName (collect_name_fn st (some s))
      = Except.ok "collect_name" := by
    have hcn : (collect_name_fn st (some s)).collect_name_result = none := by
      rw [cn_collect_name_result]; exact h2
    dsimp only [routerOf]
    unfold collect_name_router
    rw [hcn]
    rfl
  have hres : get_func_and_router "collect_name" = Resolved.reg RegNode.collectName := rfl
  have hexec : execute_node rag "collect_name" st (some s)
      = { collect_name_fn st (some s) with current_node := some "collect_name" } := by
    unfold execute_node
    rw [hres]
    dsimp only [handlerOf]
    rw [hp, hrt]
    rfl
  refine ⟨?_, ?_, ?_, ?_⟩
  · simp [collect_name_fn, hp, appendHistory]
  · rw [hexec]
    simp [collect_name_fn, hp, appendHistory]
  · rw [hexec]
    simp [collect_name_fn, hp, appendHistory]
  · rw [hexec]

/-- C1 witness: the single-character input `"a"` is accepted as a name. -/
theorem C1_witness :
    (collect_name_fn initial_state (some "a")).current_node = some "university_chat"
  ∧ (execute_node ragOkOracle "collect_name" initial_state (some "a")).name
      = some (some (pyStrip "a"))
  ∧ (execute_node ragOkOracle "collect_name" initial_state (some "a")).retry_count
      = initial_state.retry_count
  ∧ (execute_node ragOkOracle "collect_name" initial_state (some "a")).current_node
      = some "collect_name" :=
  C1_collect_name_amended ragOkOracle initial_state "a" rfl rfl

/-- C1 counterexample: on the session-initial state, input `"a"` (length
one) is stored as the name, gets the nice-to-meet-you reply rather than a
re-prompt, and leaves `retry_count` at 0 instead of incrementing it; and
input `"ab"` (length two) ends the turn with `current_node` still
`collect_name`, not `university_chat`. -/
theorem C1_counterexample :
    (execute_node ragOkOracle "collect_name" initial_state (some "a")).name = some (some "a")
  ∧ (execute_node ragOkOracle "collect_name" initial_state (some "a")).retry_count = 0
  ∧ (execute_node ragOkOracle "collect_name" initial_state (some "a")).next_question
      = some (niceToMeetMsg "a")
  ∧ (execute_node ragOkOracle "collect_name" initial_state (some "a")).current_node
      = some "collect_name"
  ∧ (execute_node ragOkOracle "collect_name" initial_state (some "ab")).current_node
      = some "collect_name"
  ∧ ¬ (execute_node ragOkOracle "collect_name" initial_state (some "ab")).current_node
      = some "university_chat" := by
  exact ⟨rfl, rfl, rfl, rfl, rfl, by decide⟩

/-! ## Claim C2 -/

/-- C2 (corrected): the `university_chat` handler matches seven goodbye
phrases (without `"end"` and `"stop"`) on the lowered input and writes
`current_node = "goodbye"`, but the executed turn is decided by
`university_chat_router` over the `last_query` field (eight keywords,
without `"see you"`), which no code ever writes: after `execute_node` the
node is `goodbye` exactly when the pre-existing `last_query` is a string
whose lowercasing contains a router keyword, independently of the user
input (a `last_query` of `None`, as the app initialises it, makes the
router raise and the node stays `university_chat`). -/
theorem C2_goodbye_routing_amended (rag : RagOracle) (st : ConvState) (s : String)
    (h1 : (s == "") = false) :
    ((university_chat_fn rag st (some s)).current_node = some "goodbye"
      ↔ goodbye_phrases.any (fun p => strContainsSub (pyLower (pyStrip s)) p) = true)
  ∧ ((execute_node rag "university_chat" st (some s)).current_node = some "goodbye"
      ↔ lastQueryMatches st.last_query = true) := by
  have hp : pyTruthy (some s) = true := by simp [pyTruthy, h1]
  constructor
  · rw [uc_fn_current_node rag st s hp]
    cases hph : goodbye_phrases.any (fun p => strContainsSub (pyLower (pyStrip s)) p) <;> simp
  · rw [execute_uc_current_node rag st s hp]
    cases hq : lastQueryMatches st.last_query <;> simp

/-- C2 witness: with a stored `last_query` containing `"thanks"`, even a
non-goodbye input ends the turn in `goodbye`; and the handler recognises
the phrase `"bye"` in mixed case. -/
theorem C2_witness :
    (execute_node ragOkOracle "university_chat"
        { initial_state with last_query := some (some "ok thanks") }
        (some "tell me about fees")).current_node = some "goodbye"
  ∧ (university_chat_fn ragOkOracle initial_state (some "ByE")).current_node
      = some "goodbye" := by
  have h := C2_goodbye_routing_amended ragOkOracle
    { initial_state with last_query := some (some "ok thanks") } "tell me about fees" rfl
  have h2 := C2_goodbye_routing_amended ragOkOracle initial_state "ByE" rfl
  exact ⟨h.2.mpr rfl, h2.1.mpr rfl⟩

/-- C2 counterexample: in the state the application actually creates
(`last_query` present and holding `None`), the input `"bye"` does not
transition — the router raises, the executor catches, and `current_node`
remains `university_chat`. -/
theorem C2_counterexample :
    (execute_node ragOkOracle "university_chat"
        { initial_state with current_node := some "university_chat" }
        (some "bye")).current_node = some "university_chat"
  ∧ ¬ (execute_node ragOkOracle "university_chat"
        { initial_state with current_node := some "university_chat" }
        (some "bye")).current_node = some "goodbye" := by
  exact ⟨rfl, by decide⟩

/-! ## Claim C3 -/

/-- C3 (corrected): `execute_node` is total and an unresolvable node name
yields an error state with a generic apology, and handler or router
exceptions are likewise caught into `state["error"]` — but the name
cleanup is `replace("_node", "")` on every occurrence, not a suffix
strip, so the claim fails on names such as `"collect_node_name"` (see
the counterexample); the amended precondition is that the name with all
`_node` occurrences removed is outside the three-node registry. -/
theorem C3_executor_amended (rag : RagOracle) (name : String) (st st2 : ConvState)
    (ui : Option String) (s2 : String)
    (h1 : cleanNodeName name ∉ (["collect_name", "university_chat", "goodbye"] : List String))
    (h2 : (s2 == "") = false) (h3 : st2.last_query = some none) :
    ((execute_node rag name st ui).error.isSome = true
      ∧ ((execute_node rag name st ui).next_question = some unknownNodeReply
         ∨ (execute_node rag name st ui).next_question = some execErrorReply))
  ∧ ((execute_node rag "university_chat" st2 (some s2)).error.isSome = true
      ∧ (execute_node rag "university_chat" st2 (some s2)).next_question
          = some execErrorReply) := by
  constructor
  · have e1 : (cleanNodeName name == "collect_name") = false := by
      simp only [beq_eq_false_iff_ne, ne_eq]
      intro e
      exact h1 (by rw [e]; simp)
    have e2 : (cleanNodeName name == "university_chat") = false := by
      simp only [beq_eq_false_iff_ne, ne_eq]
      intro e
      exact h1 (by rw [e]; simp)
    have e3 : (cleanNodeName name == "goodbye") = false := by
      simp only [beq_eq_false_iff_ne, ne_eq]
      intro e
      exact h1 (by rw [e]; simp)
    unfold execute_node get_func_and_router
    simp only [e1, e2, e3, Bool.false_eq_true, if_false]
    cases hctn : node_functions_attrs.contains (cleanNodeName name) <;> simp
  · have hp2 : pyTruthy (some s2) = true := by simp [pyTruthy, h2]
    have hres : get_func_and_router "university_chat" = Resolved.reg RegNode.universityChat := rfl
    have hrr : routerOf RegNode.universityChat (university_chat_fn rag st2 (some s2))
        = Except.error "AttributeError" := by
      dsimp only [routerOf]
      unfold university_chat_router
      rw [uc_last_query, h3]
    unfold execute_node
    rw [hres]
    dsimp only [handlerOf]
    simp only [hp2, if_true]
    rw [hrr]
    exact ⟨rfl, rfl⟩

/-- C3 witness: an unknown node name produces an error state with an
apology, and a router exception (the `None.lower()` `AttributeError` on
the initial state) is caught and recorded. -/
theorem C3_witness :
    ((execute_node ragOkOracle "no_such_thing" initial_state (some "hi")).error.isSome = true
      ∧ ((execute_node ragOkOracle "no_such_thing" initial_state (some "hi")).next_question
            = some unknownNodeReply
         ∨ (execute_node ragOkOracle "no_such_thing" initial_state (some "hi")).next_question
            = some execErrorReply))
  ∧ ((execute_node ragOkOracle "university_chat" initial_state (some "hi")).error.isSome = true
      ∧ (execute_node ragOkOracle "university_chat" initial_state (some "hi")).next_question
          = some execErrorReply) :=
  C3_executor_amended ragOkOracle "no_such_thing" initial_state initial_state
    (some "hi") "hi" (by decide) rfl rfl

/-- C3 counterexample: `"collect_node_name"` does not end with `"_node"`
and is not one of the three registry nodes, yet `execute_node` raises no
error for it — `replace("_node", "")` turns it into `"collect_name"`,
whose handler runs normally and stores the input as the name. -/
theorem C3_counterexample :
    (["collect_name", "university_chat", "goodbye"] : List String).contains
        "collect_node_name" = false
  ∧ List.isSuffixOf "_node".data "collect_node_name".data = false
  ∧ (execute_node ragOkOracle "collect_node_name" initial_state (some "Bob")).error = none
  ∧ (execute_node ragOkOracle "collect_node_name" initial_state (some "Bob")).name
      = some (some "Bob") := by
  exact ⟨rfl, rfl, rfl, rfl⟩

/-! ## Claim C5 -/

/-- C5 (confirmed): `execute_node` writes `current_node` into the
returned state unconditionally; with truthy input on a registry node the
written value is the router output over the handler-updated state when
that output is truthy, and in every other case (falsy input, empty
router output, router exception, or a non-registry resolution carrying no
router) the node name passed in is written back, overriding whatever the
handler stored. -/
theorem C5_executor_routing (rag : RagOracle) (name : String) (st : ConvState)
    (ui : Option String) :
    (execute_node rag name st ui).current_node.isSome = true
  ∧ (pyTruthy ui = false → (execute_node rag name st ui).current_node = some name)
  ∧ (∀ k nn, get_func_and_router name = .reg k → pyTruthy ui = true →
      routerOf k (handlerOf rag k st ui) = .ok nn → (nn == "") = false →
      (execute_node rag name st ui).current_node = some nn)
  ∧ (∀ k, get_func_and_router name = .reg k → pyTruthy ui = true →
      routerOf k (handlerOf rag k st ui) = .ok "" →
      (execute_node rag name st ui).current_node = some name)
  ∧ (∀ k e, get_func_and_router name = .reg k → pyTruthy ui = true →
      routerOf k (handlerOf rag k st ui) = .error e →
      (execute_node rag name st ui).current_node = some name)
  ∧ ((get_func_and_router name = .raisingAttr ∨ get_func_and_router name = .missing) →
      (execute_node rag name st ui).current_node = some name) := by
  refine ⟨?_, ?_, ?_, ?_, ?_, ?_⟩
  · unfold execute_node
    cases hres : get_func_and_router name
    · dsimp only
      split
      · split <;> rfl
      · rfl
    · rfl
    · rfl
  · intro h
    unfold execute_node
    cases hres : get_func_and_router name
    · rw [h]
      rfl
    · rfl
    · rfl
  · intro k nn hres ht hr hnn
    unfold execute_node
    rw [hres]
    dsimp only
    rw [ht, hr]
    simp [hnn]
  · intro k hres ht hr
    unfold execute_node
    rw [hres]
    dsimp only
    rw [ht, hr]
    rfl
  · intro k e hres ht hr
    unfold execute_node
    rw [hres]
    dsimp only
    rw [ht, hr]
    rfl
  · rintro (h | h) <;> unfold execute_node <;> rw [h]

/-- C5 witness: a truthy-router turn, a falsy-input turn and an unknown
node, each writing the expected `current_node`. -/
theorem C5_witness :
    (execute_node ragOkOracle "university_chat"
        { initial_state with last_query := some (some "hi") }
        (some "hello")).current_node = some "university_chat"
  ∧ (execute_node ragOkOracle "university_chat"
        { initial_state with last_query := some (some "hi") } none).current_node
      = some "university_chat"
  ∧ (execute_node ragOkOracle "no_such"
        { initial_state with last_query := some (some "hi") }
        (some "hello")).current_node = some "no_such" := by
  have h := C5_executor_routing ragOkOracle "university_chat"
    { initial_state with last_query := some (some "hi") } (some "hello")
  have h2 := C5_executor_routing ragOkOracle "university_chat"
    { initial_state with last_query := some (some "hi") } none
  have h3 := C5_executor_routing ragOkOracle "no_such"
    { initial_state with last_query := some (some "hi") } (some "hello")
  exact ⟨h.2.2.1 RegNode.universityChat "university_chat" rfl rfl rfl rfl,
    h2.2.1 rfl, h3.2.2.2.2.2 (Or.inr rfl)⟩

/-! ## Claim C6 -/

/-- C6 (corrected): when the RAG call raises or returns a blank answer,
the `university_chat` handler substitutes a fixed apology (one string for
exceptions, another for blank answers) and writes
`current_node = "university_chat"`; the executed turn also stays in
`university_chat` provided the stored `last_query` does not contain a
router goodbye keyword — with such a `last_query` the router transitions
to `goodbye` regardless of the user input and of the RAG failure (see
the counterexample). -/
theorem C6_rag_failure_amended (rag : RagOracle) (st : ConvState) (s : String)
    (h1 : (s == "") = false)
    (h2 : goodbye_phrases.any (fun p => strContainsSub (pyLower (pyStrip s)) p) = false)
    (h3 : ragBlankOrRaised (rag (pyLower (pyStrip s)) st.session_id) = true)
    (h4 : lastQueryMatches st.last_query = false) :
    ((university_chat_fn rag st (some s)).next_question = some ragTroubleReply
      ∨ (university_chat_fn rag st (some s)).next_question = some noInfoReply)
  ∧ (university_chat_fn rag st (some s)).current_node = some "university_chat"
  ∧ (execute_node rag "university_chat" st (some s)).current_node
      = some "university_chat" := by
  have hp : pyTruthy (some s) = true := by simp [pyTruthy, h1]
  have hnq : (university_chat_fn rag st (some s)).next_question
      = some (match rag (pyLower (pyStrip s)) st.session_id with
          | Except.ok r => if pyStrip r == "" then noInfoReply else r
          | Except.error _ => ragTroubleReply) := by
    unfold university_chat_fn
    dsimp only [Option.getD_some]
    rw [hp, h2]
    rfl
  refine ⟨?_, ?_, ?_⟩
  · cases hrag : rag (pyLower (pyStrip s)) st.session_id with
    | ok r =>
      right
      have h3r : (pyStrip r == "") = true := by rw [hrag] at h3; exact h3
      rw [hnq, hrag]
      dsimp only
      rw [h3r]
      rfl
    | error e =>
      left
      rw [hnq, hrag]
  · rw [uc_fn_current_node rag st s hp, h2]
    rfl
  · rw [execute_uc_current_node rag st s hp, h4]
    rfl

/-- C6 witness: a failing RAG oracle on a non-goodbye input with an
unmatching `last_query` yields the fixed apology and no transition. -/
theorem C6_witness :
    ((university_chat_fn ragFailOracle initial_state (some "what is tuition")).next_question
        = some ragTroubleReply
      ∨ (university_chat_fn ragFailOracle initial_state (some "what is tuition")).next_question
        = some noInfoReply)
  ∧ (university_chat_fn ragFailOracle initial_state (some "what is tuition")).current_node
      = some "university_chat"
  ∧ (execute_node ragFailOracle "university_chat" initial_state
        (some "what is tuition")).current_node = some "university_chat" :=
  C6_rag_failure_amended ragFailOracle initial_state "what is tuition" rfl rfl rfl rfl

/-- C6 counterexample: a session state whose `last_query` is the string
`"thanks"` transitions to `goodbye` although the user input is not a
goodbye message and the RAG call failed, refuting that a RAG failure
never transitions. -/
theorem C6_counterexample :
    ragBlankOrRaised (ragFailOracle (pyLower (pyStrip "what are the fees"))
        ({ initial_state with
            current_node := some "university_chat",
            last_query := some (some "thanks") } : ConvState).session_id) = true
  ∧ goodbye_phrases.any
      (fun p => strContainsSub (pyLower (pyStrip "what are the fees")) p) = false
  ∧ (execute_node ragFailOracle "university_chat"
        { initial_state with
          current_node := some "university_chat",
          last_query := some (some "thanks") }
        (some "what are the fees")).current_node = some "goodbye"
  ∧ ¬ (execute_node ragFailOracle "university_chat"
        { initial_state with
          current_node := some "university_chat",
          last_query := some (some "thanks") }
        (some "what are the fees")).current_node = some "university_chat" := by
  exact ⟨rfl, rfl, rfl, by decide⟩

/-! ## Claim C7 -/

/-- C7 (confirmed): `conversation_ended` is monotonic — it is false on
the freshly initialised session (also after the initial input-less
`collect_name` execution), every executor step and every chat turn
preserves a true value, and the only node whose execution turns it from
false to true is the registry `goodbye` node. -/
theorem C7_conversation_ended_monotone (rag : RagOracle) (name : String) (st : ConvState)
    (ui : Option String) :
    (execute_node rag "collect_name" initial_state none).conversation_ended = false
  ∧ (st.conversation_ended = true → (execute_node rag name st ui).conversation_ended = true)
  ∧ (st.conversation_ended = true → (chat_turn rag st ui).conversation_ended = true)
  ∧ (st.conversation_ended = false →
      (execute_node rag name st ui).conversation_ended = true →
      get_func_and_router name = .reg .goodbye) := by
  have mono : ∀ name2 st2 ui2, st2.conversation_ended = true →
      (execute_node rag name2 st2 ui2).conversation_ended = true := by
    intro name2 st2 ui2 h
    cases hres : get_func_and_router name2 with
    | reg k =>
      rw [execute_node_ce_reg rag name2 st2 ui2 k hres, handlerOf_ce]
      split
      · rfl
      · exact h
    | raisingAttr =>
      rw [execute_node_ce_nonreg rag name2 st2 ui2 (Or.inl hres)]
      exact h
    | missing =>
      rw [execute_node_ce_nonreg rag name2 st2 ui2 (Or.inr hres)]
      exact h
  refine ⟨rfl, mono name st ui, ?_, ?_⟩
  · intro h
    unfold chat_turn
    simp [h]
  · intro hfalse htrue
    cases hres : get_func_and_router name with
    | reg k =>
      cases k with
      | goodbye => rfl
      | collectName =>
        rw [execute_node_ce_reg rag name st ui _ hres, handlerOf_ce] at htrue
        simp [hfalse] at htrue
      | universityChat =>
        rw [execute_node_ce_reg rag name st ui _ hres, handlerOf_ce] at htrue
        simp [hfalse] at htrue
    | raisingAttr =>
      rw [execute_node_ce_nonreg rag name st ui (Or.inl hres), hfalse] at htrue
      exact Bool.noConfusion htrue
    | missing =>
      rw [execute_node_ce_nonreg rag name st ui (Or.inr hres), hfalse] at htrue
      exact Bool.noConfusion htrue

/-- C7 witness: the initial session is not ended; an ended session stays
ended through an executor step and a chat turn; and the `goodbye` node is
the one that flips the flag. -/
theorem C7_witness :
    (execute_node ragOkOracle "collect_name" initial_state none).conversation_ended = false
  ∧ (execute_node ragOkOracle "university_chat"
      { initial_state with conversation_ended := true } (some "hi")).conversation_ended = true
  ∧ (chat_turn ragOkOracle { initial_state with conversation_ended := true }
      (some "hi")).conversation_ended = true
  ∧ get_func_and_router "goodbye" = .reg .goodbye := by
  have h1 := C7_conversation_ended_monotone ragOkOracle "university_chat"
    { initial_state with conversation_ended := true } (some "hi")
  have h2 := C7_conversation_ended_monotone ragOkOracle "goodbye" initial_state (some "x")
  exact ⟨h1.1, h1.2.1 rfl, h1.2.2.1 rfl, h2.2.2.2 rfl rfl⟩

/-! ## Claim C4 -/

/-- C4 (code bug): `query_university_info` does not convert connection
failures and timeouts into fallback strings.  When the `requests.post`
call raises, CPython evaluates the first except clause
`requests.exceptions.ConnectException`; no such attribute exists in any
version of requests, so an `AttributeError` propagates past the
function boundary.  Only the non-200 path returns the documented
fallback. -/
theorem C4_rag_client_raises :
    query_university_info .raiseConn "hello"
      = .raised "AttributeError: module requests.exceptions has no attribute ConnectException"
  ∧ query_university_info .raiseTimeout "hello"
      = .raised "AttributeError: module requests.exceptions has no attribute ConnectException"
  ∧ query_university_info (.resp 503 ⟨none, none, none, none, "err"⟩) "hello"
      = .ok (get_fallback_response "hello")
  ∧ requests_exceptions_attrs.contains "ConnectException" = false := by
  exact ⟨rfl, rfl, rfl, rfl⟩

/-! ## Claim C8 -/

/-- C8 (corrected): `create_session` embeds the generated identifier into
the state under `session_id` and inserts the state, but performs no
membership check against the store; the returned identifiers of a run of
calls are exactly the `uuid4` outputs, so they are pairwise distinct
exactly when those outputs are. -/
theorem C8_create_session_amended (new_id : String) (st : ConvState)
    (store store2 : SessStore) (l : List (String × ConvState))
    (h : (l.map Prod.fst).Nodup) :
    (create_session new_id st store).1 = new_id
  ∧ get_session new_id (create_session new_id st store).2
      = some { st with session_id := some new_id }
  ∧ (runCreates store2 l).1 = l.map Prod.fst
  ∧ (runCreates store2 l).1.Nodup := by
  refine ⟨rfl, ?_, runCreates_fst l store2, ?_⟩
  · exact storeGet_set_self new_id _ store
  · rw [runCreates_fst l store2]; exact h

/-- C8 witness: two creations with distinct generator outputs. -/
theorem C8_witness :
    (create_session "id-1" initial_state []).1 = "id-1"
  ∧ get_session "id-1" (create_session "id-1" initial_state []).2
      = some { initial_state with session_id := some "id-1" }
  ∧ (runCreates [] [("id-1", initial_state), ("id-2", initial_state)]).1 = ["id-1", "id-2"]
  ∧ (runCreates [] [("id-1", initial_state), ("id-2", initial_state)]).1.Nodup := by
  have h := C8_create_session_amended "id-1" initial_state [] []
    [("id-1", initial_state), ("id-2", initial_state)] (by decide)
  exact ⟨h.1, h.2.1, h.2.2.1, h.2.2.2⟩

/-- C8 counterexample: the code never checks the store, so a repeated
generator output makes two successive `create_session` calls return the
same identifier and silently collapses the two sessions into one store
entry, refuting that N calls always yield N pairwise distinct
identifiers. -/
theorem C8_counterexample :
    (runCreates [] [("A", initial_state), ("A", initial_state)]).1 = ["A", "A"]
  ∧ ¬ (runCreates [] [("A", initial_state), ("A", initial_state)]).1.Nodup
  ∧ (runCreates [] [("A", initial_state), ("A", initial_state)]).2
      = [("A", { initial_state with session_id := some "A" })] := by
  refine ⟨rfl, by decide, rfl⟩

/-! ## Claim C9 -/

/-- C9 (confirmed): for an identifier absent from the store,
`get_session` returns the distinct not-found outcome `None`,
`update_session` and `delete_session` return `False` leaving the store
unchanged, and `get_session` after a `delete_session` of the same
identifier is always not-found. -/
theorem C9_absent_semantics (id : String) (store store2 : SessStore) (st2 : ConvState)
    (h : storeHasKey id store = false) :
    get_session id store = none
  ∧ update_session id st2 store = (false, store)
  ∧ delete_session id store = (false, store)
  ∧ get_session id (delete_session id store2).2 = none := by
  refine ⟨storeGet_none_of_hasKey_false id store h, ?_, ?_, ?_⟩
  · unfold update_session
    rw [h]
    rfl
  · unfold delete_session
    rw [h]
    rfl
  · unfold delete_session
    by_cases hk : storeHasKey id store2
    · rw [hk]
      exact storeGet_erase_self id store2
    · rw [Bool.not_eq_true] at hk
      rw [hk]
      exact storeGet_none_of_hasKey_false id store2 hk

/-- C9 witness: a concrete store with one session and a missing id. -/
theorem C9_witness :
    get_session "nope" [("sess1", initial_state)] = none
  ∧ update_session "nope" initial_state [("sess1", initial_state)]
      = (false, [("sess1", initial_state)])
  ∧ delete_session "nope" [("sess1", initial_state)] = (false, [("sess1", initial_state)])
  ∧ get_session "sess1" (delete_session "sess1" [("sess1", initial_state)]).2 = none := by
  have h := C9_absent_semantics "nope" [("sess1", initial_state)]
    [("sess1", initial_state)] initial_state (by rfl)
  have h2 := C9_absent_semantics "sess1" [] [("sess1", initial_state)] initial_state (by rfl)
  exact ⟨h.1, h.2.1, h.2.2.1, h2.2.2.2⟩

/-! ## Claim C10 -/

/-- C10 (confirmed): `get_all_sessions` allocates a fresh dict holding
the store entries at call time; removing or adding an entry through the
returned reference leaves the store object unchanged. -/
theorem C10_get_all_sessions_copy (h : Heap) (r : Nat) (k k2 : String) (v : ConvState)
    (hr : r < h.length) :
    hGet (get_all_sessions_h h r).2 (get_all_sessions_h h r).1 = hGet h r
  ∧ (get_all_sessions_h h r).1 ≠ r
  ∧ hGet (heapDelEntry (get_all_sessions_h h r).2 (get_all_sessions_h h r).1 k) r = hGet h r
  ∧ hGet (heapAddEntry (get_all_sessions_h h r).2 (get_all_sessions_h h r).1 k2 v) r
      = hGet h r := by
  have hne : h.length ≠ r := Nat.ne_of_gt hr
  refine ⟨hGet_append_self h _, hne, ?_, ?_⟩
  · unfold heapDelEntry get_all_sessions_h
    rw [hGet_set_ne _ _ _ _ hne]
    exact hGet_append_lt h _ r hr
  · unfold heapAddEntry get_all_sessions_h
    rw [hGet_set_ne _ _ _ _ hne]
    exact hGet_append_lt h _ r hr

/-- C10 witness: one store object with one session; deleting in the
returned copy leaves the store entry in place. -/
theorem C10_witness :
    hGet (get_all_sessions_h [[("X", initial_state)]] 0).2
        (get_all_sessions_h [[("X", initial_state)]] 0).1 = [("X", initial_state)]
  ∧ hGet (heapDelEntry (get_all_sessions_h [[("X", initial_state)]] 0).2
        (get_all_sessions_h [[("X", initial_state)]] 0).1 "X") 0 = [("X", initial_state)] := by
  have h := C10_get_all_sessions_copy [[("X", initial_state)]] 0 "X" "Y" initial_state
    (by decide)
  exact ⟨h.1, h.2.2.1⟩

end Mithr
